import Mathlib

/-!
# Verification of the guvi_honeypot scam-detection core

Shallow embedding of the repository's Python code:

* `src/models/scam_detector.py` — heuristic scorer, custom feature row,
  legitimacy guard rails and the `ScamDetector.analyze` verdict fusion;
* `src/utils/intelligence.py` — regex-based intelligence extraction;
* `src/agents/response_agent.py` — reply generation.

Python floats are modelled as rationals, Python `int` as `ℤ`/`ℕ`, Python
strings as Lean `String` (processed through their underlying `List Char`).
The trained RandomForest classifier is an external artifact; its
`predict_proba` output is modelled as an oracle `MLModel` parameter, and the
theorems hold for every oracle.
-/

/-! ## Python string primitives -/

/-- Python whitespace (`str.split` / `str.strip` default set, ASCII). -/
def isPySpace (c : Char) : Bool :=
  c = ' ' || c = '\t' || c = '\n' || c = '\r' || c = '\x0b' || c = '\x0c'

/-- ASCII lower-casing of one character, as Python `str.lower` acts on the
ASCII inputs used throughout this repository. -/
def lowerChar (c : Char) : Char :=
  if 'A' ≤ c ∧ c ≤ 'Z' then Char.ofNat (c.toNat + 32) else c

/-- Python `text.lower()`. -/
def pyLower (s : String) : String := ⟨s.data.map lowerChar⟩

/-- Python `text.strip()` on a character list. -/
def pyStripList (cs : List Char) : List Char :=
  ((cs.dropWhile isPySpace).reverse.dropWhile isPySpace).reverse

/-- Python `text.strip()`. -/
def pyStrip (s : String) : String := ⟨pyStripList s.data⟩

/-- Substring containment on character lists. -/
def pyInList (a : List Char) : List Char → Bool
  | [] => a.isPrefixOf []
  | c :: cs => a.isPrefixOf (c :: cs) || pyInList a cs

/-- Python `needle in haystack` for strings (substring containment). -/
def pyIn (needle hay : String) : Bool := pyInList needle.data hay.data

/-- Helper for Python `str.split()`: accumulate maximal non-whitespace runs. -/
def pySplitAux : List Char → List Char → List (List Char)
  | [], acc => if acc.isEmpty then [] else [acc.reverse]
  | c :: cs, acc =>
    if isPySpace c then
      if acc.isEmpty then pySplitAux cs [] else acc.reverse :: pySplitAux cs []
    else pySplitAux cs (c :: acc)

/-- Python `text.split()` (split on whitespace runs, no empty fields). -/
def pySplit (s : String) : List String := (pySplitAux s.data []).map List.asString

/-- Python `sep.join(xs)` at the character-list level. -/
def joinWith (sep : List Char) : List String → List Char
  | [] => []
  | [s] => s.data
  | s :: rest => s.data ++ sep ++ joinWith sep rest

/-! ## A backtracking regex engine for the patterns used by the repository

Python's `re` module matches with leftmost position preference, greedy
quantifiers and left-first alternation, backtracking on failure.  Every
pattern in this repository quantifies only single-character classes, so the
following small AST suffices; `reMatch` returns the candidate continuations
in exactly Python's backtracking preference order. -/

/-- ASCII word character, Python `\w` over the ASCII inputs used here. -/
def isWordChar (c : Char) : Bool :=
  ('a' ≤ c && c ≤ 'z') || ('A' ≤ c && c ≤ 'Z') || ('0' ≤ c && c ≤ '9') || c = '_'

/-- Regular-expression AST: literals, single-char classes, greedy bounded or
unbounded repetition of a class, option, alternation, sequence, and the
word-boundary anchor `\b`. -/
inductive RE where
  | lit : List Char → RE
  | cls : (Char → Bool) → RE
  | rep : (Char → Bool) → Nat → Option Nat → RE
  | opt : RE → RE
  | alt : RE → RE → RE
  | seq : RE → RE → RE
  | wb : RE

/-- Match a literal, threading the previous character (for `\b`). -/
def litMatch : List Char → Option Char → List Char → List (Option Char × List Char)
  | [], prev, cs => [(prev, cs)]
  | p :: ps, _, c :: cs => if p = c then litMatch ps (some c) cs else []
  | _ :: _, _, [] => []

/-- All splits obtained by consuming `0, 1, 2, …` leading characters that
satisfy `p`, in increasing consumed order, stopping at the first failure. -/
def splitsUpTo (p : Char → Bool) (prev : Option Char) : List Char → List (Option Char × List Char)
  | [] => [(prev, [])]
  | c :: cs => (prev, c :: cs) :: (if p c then splitsUpTo p (some c) cs else [])

/-- Is the previous character a word character (`false` at the start)? -/
def prevIsWord : Option Char → Bool
  | none => false
  | some c => isWordChar c

/-- Is the next character a word character (`false` at the end)? -/
def nextIsWord : List Char → Bool
  | [] => false
  | c :: _ => isWordChar c

/-- All ways for `r` to match a prefix of the input, each yielding the last
consumed character and the remaining suffix, in Python's backtracking
preference order (the head is the match Python commits to). -/
def reMatch : RE → Option Char → List Char → List (Option Char × List Char)
  | .lit s, prev, cs => litMatch s prev cs
  | .cls _, _, [] => []
  | .cls p, _, c :: cs => if p c then [(some c, cs)] else []
  | .rep p lo hi, prev, cs =>
    let splits := splitsUpTo p prev cs
    let bounded := match hi with
      | some h => splits.take (h + 1)
      | none => splits
    (bounded.drop lo).reverse
  | .opt r, prev, cs => reMatch r prev cs ++ [(prev, cs)]
  | .alt a b, prev, cs => reMatch a prev cs ++ reMatch b prev cs
  | .seq a b, prev, cs => (reMatch a prev cs).flatMap fun pc => reMatch b pc.1 pc.2
  | .wb, prev, cs => if prevIsWord prev != nextIsWord cs then [(prev, cs)] else []

/-- Scan for a match starting at each position (Python `re.search ≠ None`). -/
def reSearchAux (r : RE) : Option Char → List Char → Bool
  | prev, [] => !(reMatch r prev []).isEmpty
  | prev, c :: cs => !(reMatch r prev (c :: cs)).isEmpty || reSearchAux r (some c) cs

/-- Python `bool(re.search(r, s))`. -/
def reSearch (r : RE) (s : List Char) : Bool := reSearchAux r none s

/-- Python `re.findall` (for group-free patterns): scan left to right,
emit each committed match, continue after it (advancing one character past
positions with no match or an empty match). -/
def reFindallAux (r : RE) : Nat → Option Char → List Char → List (List Char)
  | 0, _, _ => []
  | fuel + 1, prev, cs =>
    match reMatch r prev cs with
    | (prev', rest) :: _ =>
      let m := cs.take (cs.length - rest.length)
      if m.isEmpty then
        match cs with
        | [] => []
        | c :: cs' => reFindallAux r fuel (some c) cs'
      else m :: reFindallAux r fuel prev' rest
    | [] =>
      match cs with
      | [] => []
      | c :: cs' => reFindallAux r fuel (some c) cs'

/-- Python `re.findall(r, s)` for the group-free patterns of this repo. -/
def reFindall (r : RE) (s : List Char) : List (List Char) :=
  reFindallAux r (s.length + 1) none s

/-! ## The concrete regexes of the repository -/

/-- Python `\d` (ASCII digits on these inputs). -/
def isDigitChar (c : Char) : Bool := '0' ≤ c && c ≤ '9'

/-- Pattern `https?://` (`src/models/scam_detector.py`, `_heuristic_score` and
`_custom_feature_row`). -/
def linkRE : RE := .seq (.lit "http".data) (.seq (.opt (.cls (· = 's'))) (.lit "://".data))

/-- Pattern `\+91\d{10}` (`src/models/scam_detector.py`, `_custom_feature_row`,
`phone_present`). -/
def phoneFeatureRE : RE := .seq (.lit "+91".data) (.rep isDigitChar 10 (some 10))

/-- Pattern `\b[a-z0-9._-]+@[a-z0-9.-]+\b` (`src/models/scam_detector.py`,
`_custom_feature_row`, `upi_or_email_present`; applied to lowered text). -/
def emailFeatureRE : RE :=
  .seq .wb (.seq (.rep (fun c => ('a' ≤ c && c ≤ 'z') || isDigitChar c || c = '.' || c = '_' || c = '-') 1 none)
    (.seq (.lit "@".data) (.seq (.rep (fun c => ('a' ≤ c && c ≤ 'z') || isDigitChar c || c = '.' || c = '-') 1 none) .wb)))

/-- ASCII letter (either case). -/
def isAsciiAlpha (c : Char) : Bool := ('a' ≤ c && c ≤ 'z') || ('A' ≤ c && c ≤ 'Z')

/-- Pattern `\b\d{4}-\d{4}-\d{4,5}\b|\b\d{12,18}\b` (`src/utils/intelligence.py`,
bank accounts). -/
def bankRE : RE :=
  .alt
    (.seq .wb (.seq (.rep isDigitChar 4 (some 4)) (.seq (.lit "-".data)
      (.seq (.rep isDigitChar 4 (some 4)) (.seq (.lit "-".data)
        (.seq (.rep isDigitChar 4 (some 5)) .wb))))))
    (.seq .wb (.seq (.rep isDigitChar 12 (some 18)) .wb))

/-- Pattern `\b[a-zA-Z0-9._-]+@[a-zA-Z0-9.-]+\b` (`src/utils/intelligence.py`, UPI ids). -/
def upiRE : RE :=
  .seq .wb (.seq (.rep (fun c => isAsciiAlpha c || isDigitChar c || c = '.' || c = '_' || c = '-') 1 none)
    (.seq (.lit "@".data) (.seq (.rep (fun c => isAsciiAlpha c || isDigitChar c || c = '.' || c = '-') 1 none) .wb)))

/-- Pattern `https?://[^\s]+` (`src/utils/intelligence.py`, phishing links). -/
def linkFindRE : RE :=
  .seq (.lit "http".data) (.seq (.opt (.cls (· = 's'))) (.seq (.lit "://".data)
    (.rep (fun c => !isPySpace c) 1 none)))

/-- Pattern `\+?91[- ]?\d{10}|\b[6-9]\d{9}\b` (`src/utils/intelligence.py`, phones). -/
def phoneIntelRE : RE :=
  .alt
    (.seq (.opt (.cls (· = '+'))) (.seq (.lit "91".data)
      (.seq (.opt (.cls (fun c => c = '-' || c = ' '))) (.rep isDigitChar 10 (some 10)))))
    (.seq .wb (.seq (.cls (fun c => '6' ≤ c && c ≤ '9')) (.seq (.rep isDigitChar 9 (some 9)) .wb)))

/-- The eight `legit_patterns` of `ScamDetector.analyze`
(`src/models/scam_detector.py`, lines 241-250), in source order. -/
def legitPatterns : List RE :=
  [ .seq (.lit "inr".data) (.seq (.rep isPySpace 1 none)
      (.seq (.rep (fun c => isDigitChar c || c = ',' || c = '.') 1 none) (.seq (.rep isPySpace 1 none)
        (.seq (.alt (.lit "debited".data) (.lit "credited".data)) (.seq (.rep isPySpace 1 none)
          (.seq (.lit "from".data) (.seq (.rep isPySpace 1 none) (.lit "a/c".data))))))))
  , .lit "credit of rs".data
  , .lit "credited to your account".data
  , .seq (.lit "your otp is ".data) (.rep isDigitChar 4 (some 6))
  , .lit "scheduled maintenance".data
  , .lit "available balance".data
  , .lit "monthly account statement".data
  , .seq (.lit "emi ".data) (.seq (.rep (· ≠ '\n') 0 none) (.lit " auto-debited".data)) ]

/-! ## Data model -/

/-- A conversation message (`{sender, text}` dict in the source). -/
structure Msg where
  sender : String
  text : String
deriving DecidableEq

/-- The dictionary returned by `ScamDetector.analyze`. -/
structure DetectionResult where
  is_scam : Bool
  confidence : ℚ
  ml_probability : ℚ
  heuristic_score : ℤ
  legitimacy_score : ℚ
  combined_text_used : String
deriving DecidableEq

/-- The trained classifier, modelled as an oracle: `predict_proba`'s
scam-class probability for a given text. -/
structure MLModel where
  predictProba : String → ℚ

/-! ## Python `round` (banker's rounding) on rationals -/

/-- Python `round` to an integer: round half to even. -/
def pyRoundHalfEven (q : ℚ) : ℤ :=
  let n := ⌊q⌋
  let r := q - n
  if r < 1/2 then n
  else if 1/2 < r then n + 1
  else if n % 2 = 0 then n else n + 1

/-- Python `round(q, 3)`. -/
def pyRound3 (q : ℚ) : ℚ := (pyRoundHalfEven (q * 1000) : ℚ) / 1000

/-! ## `src/models/scam_detector.py` -/

/-- Source `_contains(patterns, text)`: any pattern is a substring of `text`. -/
def containsAny (patterns : List String) (text : String) : Bool :=
  patterns.any (fun p => pyIn p text)

/-- Keyword list of the urgency/threat category of `_heuristic_score`. -/
def urgencyThreatWords : List String :=
  ["urgent", "immediately", "within", "blocked", "suspended", "deactivated",
   "limited", "unusual activity", "suspicious", "avoid"]

/-- Keyword list of the financial category of `_heuristic_score`. -/
def financialWords : List String :=
  ["bank", "account", "payment", "transfer", "refund", "upi", "credit", "debit"]

/-- Keyword list of the action category of `_heuristic_score`. -/
def actionWords : List String :=
  ["restore", "reactivate", "verify", "confirm", "submit", "update", "click", "login", "respond"]

/-- Keyword list of the OTP/PIN category of `_heuristic_score`. -/
def otpPinWords : List String := ["otp", "pin", "upi pin"]

/-- Keyword list of the reward category of `_heuristic_score`. -/
def rewardWords : List String :=
  ["prize", "reward", "lottery", "cashback", "free", "offer", "won", "bonus"]

/-- Source `_heuristic_score(text)`: fixed weight per matched category, summed. -/
def heuristic_score (text : String) : ℤ :=
  let text_l := pyLower text
  (if containsAny urgencyThreatWords text_l then 2 else 0)
  + (if containsAny financialWords text_l then 2 else 0)
  + (if containsAny actionWords text_l then 1 else 0)
  + (if containsAny otpPinWords text_l then 2 else 0)
  + (if containsAny rewardWords text_l then 3 else 0)
  + (if reSearch linkRE text_l.data then 3 else 0)

/-- Urgency keyword list of `_custom_feature_row`. -/
def urgencyWordsCF : List String :=
  ["urgent", "immediately", "asap", "within", "hurry", "now", "today"]

/-- Threat keyword list of `_custom_feature_row`. -/
def threatWordsCF : List String :=
  ["blocked", "suspended", "deactivated", "limited", "closing", "blacklist", "otp", "pin"]

/-- Legitimacy keyword list of `_custom_feature_row`. -/
def legitimacyWords : List String :=
  ["otp", "one time password", "debited", "credited", "txn", "transaction",
   "statement", "maintenance", "account ending", "available balance", "avl bal", "emi"]

/-- The `phone_present` component of `_custom_feature_row`:
`int(bool(re.search(r"\+91\d{10}", text_l)))`. -/
def phonePresentFeature (text : String) : ℚ :=
  if reSearch phoneFeatureRE (pyLower text).data then 1 else 0

/-- Number of legitimacy terms present
(`sum(1 for w in legitimacy_words if w in text_l)`). -/
def legitTermCount (text : String) : ℕ :=
  (legitimacyWords.filter (fun w => pyIn w (pyLower text))).length

/-- The `legitimacy_score` component of `_custom_feature_row`:
`round(min(1.0, present / 3.0), 3)`. -/
def legitimacyOf (text : String) : ℚ :=
  pyRound3 (min 1 ((legitTermCount text : ℚ) / 3))

/-- Source `_custom_feature_row(text)`: the 11 handcrafted features, in source order. -/
def customFeatureRow (text : String) : List ℚ :=
  let text_l := pyLower text
  let urgency : ℚ := if containsAny urgencyWordsCF text_l then 1 else 0
  let financial : ℚ := if containsAny financialWords text_l then 1 else 0
  let action : ℚ := if containsAny actionWords text_l then 1 else 0
  let reward : ℚ := if containsAny rewardWords text_l then 1 else 0
  let threat : ℚ := if containsAny threatWordsCF text_l then 1 else 0
  let link_present : ℚ := if reSearch linkRE text_l.data then 1 else 0
  let upi_or_email_present : ℚ := if reSearch emailFeatureRE text_l.data then 1 else 0
  let word_count_norm : ℚ := min ((pySplit text).length / 50) 1
  let char_count_norm : ℚ := min ((text.data.length : ℚ) / 280) 1
  [urgency, financial, action, reward, threat, link_present, phonePresentFeature text,
   upi_or_email_present, word_count_norm, char_count_norm, legitimacyOf text]

/-! ### `ScamDetector.analyze` -/

/-- The six `safe_patterns` of `ScamDetector.analyze`, in source order. -/
def safePatterns : List String :=
  ["scheduled maintenance", "maintenance", "debited", "credited", "available balance", "avl bal"]

/-- The `combined_text` built by `ScamDetector.analyze`: the stripped current
message, a space, and the space-joined texts of the scammer-authored
messages among `history[-3:]` (the last three history messages), stripped. -/
def combinedText (message_text : String) (history : List Msg) : String :=
  let last_scammer_msgs : String :=
    ⟨joinWith " ".data (((history.drop (history.length - 3)).filter
      (fun m => m.sender = "scammer")).map (·.text))⟩
  pyStrip ⟨(pyStrip message_text).data ++ " ".data ++ last_scammer_msgs.data⟩

/-- The safe-pattern short-circuit test of `ScamDetector.analyze`:
`any(p in text_l for p in safe_patterns)`. -/
def safeShortCircuitHit (t : String) : Bool :=
  safePatterns.any (fun p => pyIn p (pyLower t))

/-- The `DetectionResult` returned by the safe short-circuit. -/
def safeShortCircuitResult (t : String) : DetectionResult :=
  { is_scam := false
  , confidence := 5/100
  , ml_probability := 0
  , heuristic_score := 0
  , legitimacy_score := if pyIn "maintenance" (pyLower t) then 1 else 667/1000
  , combined_text_used := t }

/-- Source `legit_override`: some `legit_patterns` regex matches the lowered text. -/
def legitOverride (t : String) : Bool :=
  legitPatterns.any (fun r => reSearch r (pyLower t).data)

/-- Source `safe_override = (legitimacy_score >= 0.3 and heuristic <= 1) or legit_override`. -/
def safeOverride (t : String) : Bool :=
  (decide (legitimacyOf t ≥ 3/10) && decide (heuristic_score t ≤ 1)) || legitOverride t

/-- The preliminary verdict of `ScamDetector.analyze` (before the two
later guards): `not safe_override and (ml_proba >= 0.55 or (ml_proba >= 0.45
and heuristic >= 3)) and legitimacy_score < 0.7`. -/
def prelimIsScam (ml : ℚ) (t : String) : Bool :=
  !safeOverride t
    && (decide (ml ≥ 55/100) || (decide (ml ≥ 45/100) && decide (heuristic_score t ≥ 3)))
    && decide (legitimacyOf t < 7/10)

/-- Raw confidence: `max(ml_proba, heuristic/6)`, dampened by
`1 - legitimacy*0.4`, clamped to `[0, 0.99]`, rounded to 3 decimals. -/
def rawConfidence (ml : ℚ) (t : String) : ℚ :=
  pyRound3 (min (max ((max ml ((heuristic_score t : ℚ) / 6)) * (1 - legitimacyOf t * (4/10))) 0) (99/100))

/-- Source `ScamDetector.analyze(message_text, history)`, with the trained
classifier supplied as the oracle `model`. -/
def analyze (model : MLModel) (message_text : String) (history : List Msg) : DetectionResult :=
  let t := combinedText message_text history
  if safeShortCircuitHit t then safeShortCircuitResult t
  else
    let ml := model.predictProba t
    let conf1 := rawConfidence ml t
    let conf2 := if safeOverride t then pyRound3 (min conf1 (15/100)) else conf1
    let scam2 := if safeOverride t then false else prelimIsScam ml t
    let lowSignal := decide (heuristic_score t ≤ 1) && decide (ml < 65/100)
    let conf3 := if lowSignal then pyRound3 (min conf2 (2/10)) else conf2
    let scam3 := if lowSignal then false else scam2
    { is_scam := scam3
    , confidence := conf3
    , ml_probability := pyRound3 ml
    , heuristic_score := heuristic_score t
    , legitimacy_score := legitimacyOf t
    , combined_text_used := t }

/-- Behaviour of `ScamDetector.analyze` when the classifier artifact can be neither
loaded nor trained: the safe short-circuit (lines 212-230) still returns,
but the unguarded classifier path (lines 235-238, `_load_or_train` /
`_vectorize` / `predict_proba`) lets the exception escape to the caller
(`RuntimeError("Vectorizer not initialized")` when the vectorizer is
missing). `Except.error` models the escaping exception. -/
def analyzeNoClassifier (message_text : String) (history : List Msg) :
    Except String DetectionResult :=
  let t := combinedText message_text history
  if safeShortCircuitHit t then .ok (safeShortCircuitResult t)
  else .error "Vectorizer not initialized"

/-! ## `src/utils/intelligence.py` -/

/-- Source `_collect_text(history, current_message)`: the current message followed
by `" " + text` for every scammer-authored history message, in order. -/
def collectText (history : List Msg) (current : String) : String :=
  ⟨history.foldl (fun acc m => if m.sender = "scammer" then acc ++ (' ' :: m.text.data) else acc)
    current.data⟩

/-- The `suspicious_keywords_list` of `extract_intelligence`, in source order. -/
def suspiciousKeywordsList : List String :=
  ["urgent", "immediately", "blocked", "suspended", "deactivated", "limited",
   "unusual activity", "verify", "confirm", "update", "click", "login",
   "respond", "upi", "payment", "transfer", "refund", "reward", "prize", "lottery"]

/-- The dictionary returned by `extract_intelligence`. -/
structure Intelligence where
  bankAccounts : List String
  upiIds : List String
  phishingLinks : List String
  phoneNumbers : List String
  suspiciousKeywords : List String
deriving DecidableEq

/-- Lexicographic comparison of character lists by code point — the order
Python's `sorted` uses on the strings of this repository. -/
def lexLe : List Char → List Char → Bool
  | [], _ => true
  | _ :: _, [] => false
  | a :: as, b :: bs => if a < b then true else if b < a then false else lexLe as bs

/-- Python `sorted(set(xs))` for strings: deduplicate, then sort ascending
by code-point lexicographic order. -/
def pySortedSet (l : List String) : List String :=
  l.dedup.insertionSort (fun a b => lexLe a.data b.data = true)

/-- Source `extract_intelligence(history, current_message)`. -/
def extract_intelligence (history : List Msg) (current : String) : Intelligence :=
  let full := collectText history current
  let text_l := pyLower full
  { bankAccounts := pySortedSet ((reFindall bankRE full.data).map List.asString)
  , upiIds := pySortedSet ((reFindall upiRE full.data).map List.asString)
  , phishingLinks := pySortedSet ((reFindall linkFindRE full.data).map List.asString)
  , phoneNumbers := pySortedSet ((reFindall phoneIntelRE full.data).map List.asString)
  , suspiciousKeywords := pySortedSet (suspiciousKeywordsList.filter (fun kw => pyIn kw text_l)) }

/-! ## `src/agents/response_agent.py` -/

/-- The depth → intent table of `ResponseAgent`. -/
def intentsTable : List (ℕ × String) :=
  [(0, "confused and worried"), (1, "needs explanation"), (2, "suspicious but polite"),
   (3, "seeking confirmation"), (4, "asking for guidance"), (5, "requesting more details"),
   (6, "expressing concern"), (7, "asking for verification")]

/-- Python `dict.get` over an association list. -/
def dictGet (table : List (ℕ × String)) (k : ℕ) (dflt : String) : String :=
  match table.find? (fun p => p.1 = k) with
  | some p => p.2
  | none => dflt

/-- Source `intent_for_depth(depth)`: `intents.get(min(depth, max(intents)),
"asking for guidance")`; `max(self.intents)` is the largest key, 7. -/
def intent_for_depth (depth : ℕ) : String :=
  dictGet intentsTable (min depth 7) "asking for guidance"

/-- The template table of `ResponseAgent`. -/
def templatesTable : List (String × List String) :=
  [ ("confused and worried",
     ["I'm confused and worried—what does this mean?",
      "This is worrying. Can you explain what's happening?",
      "I'm a bit concerned. What exactly do you need from me?"])
  , ("needs explanation",
     ["Can you explain this more clearly?",
      "I didn't get that. Please explain in simple terms.",
      "What exactly do you want me to do?"])
  , ("suspicious but polite",
     ["This sounds a bit suspicious; can you clarify why?",
      "I'm trying to understand—why is this required?",
      "Okay, but I need more detail before I proceed."])
  , ("seeking confirmation",
     ["Is this really from the bank?",
      "How can I know this is legitimate?",
      "Is my account actually affected?"])
  , ("asking for guidance",
     ["What should I do next?",
      "Please guide me step by step.",
      "I'm not sure what to do—can you guide me?"])
  , ("requesting more details",
     ["Can you share the exact steps you want me to follow?",
      "What details do you need from me?",
      "Which information do you expect me to provide?"])
  , ("expressing concern",
     ["I'm concerned—why is this so urgent?",
      "This feels risky. Can you reassure me?",
      "I'm worried about sharing anything without proof."])
  , ("asking for verification",
     ["How do I verify you are from the bank?",
      "Do you have an official contact I can call?",
      "Can you prove this request is genuine?"]) ]

/-- Template lookup with the `"asking for guidance"` default. -/
def templatesFor (intent : String) : List String :=
  match templatesTable.find? (fun p => p.1 = intent) with
  | some p => p.2
  | none => (templatesTable.find? (fun p => p.1 = "asking for guidance")).elim [] (·.2)

/-- Source `_clean(reply)`: first line, stripped, `"`/`*` removed, at most 18 words. -/
def pyClean (reply : String) : String :=
  let reply := pyStrip ⟨reply.data.takeWhile (· ≠ '\n')⟩
  let reply := (⟨reply.data.filter (fun c => !(c = '"' || c = '*'))⟩ : String)
  let words := pySplit reply
  if 18 < words.length then ⟨joinWith " ".data (words.take 18)⟩ else reply

/-- The external effects of `ResponseAgent`, modelled as oracles: the raw
Groq completion (`none` when there is no client or the call fails) and
`random.choice`. -/
structure ReplyEnv where
  groqRaw : String → Option String
  choice : List String → String

/-- Source `_groq_reply(intent)`: the cleaned provider reply, `""` on failure. -/
def groq_reply (env : ReplyEnv) (intent : String) : String :=
  match env.groqRaw intent with
  | none => ""
  | some s => pyClean s

/-- Source `_template_reply(intent, last_scammer_text)`: filter the intent's
templates by keyword relevance, then pick one via `random.choice`. -/
def template_reply (env : ReplyEnv) (intent : String) (last_scammer_text : String) : String :=
  let options := templatesFor intent
  let text_l := pyLower last_scammer_text
  let options :=
    if pyIn "verify" text_l || pyIn "confirm" text_l then
      let f := options.filter (fun o => pyIn "verify" (pyLower o) || pyIn "confirm" (pyLower o))
      if f.isEmpty then options else f
    else options
  let options :=
    if pyIn "upi" text_l || pyIn "pay" text_l then
      let f := options.filter (fun o => pyIn "step" (pyLower o) || pyIn "guide" (pyLower o))
      if f.isEmpty then options else f
    else options
  env.choice options

/-- Source `ResponseAgent.generate_reply(is_scam, conversation_depth,
last_scammer_text)`. -/
def generate_reply (env : ReplyEnv) (is_scam : Bool) (conversation_depth : ℕ)
    (last_scammer_text : String) : String :=
  if !is_scam then "Thanks for the update."
  else
    let intent := intent_for_depth conversation_depth
    let reply := groq_reply env intent
    if reply ≠ "" ∧ 3 ≤ reply.data.length then reply
    else template_reply env intent last_scammer_text

/-! ## Lemmas about `pyRound3` -/

theorem floor_le_pyRoundHalfEven (q : ℚ) : ⌊q⌋ ≤ pyRoundHalfEven q := by
  unfold pyRoundHalfEven
  dsimp only
  split_ifs <;> omega

theorem pyRoundHalfEven_le_ceil (q : ℚ) : pyRoundHalfEven q ≤ ⌈q⌉ := by
  have hfc : ⌊q⌋ ≤ ⌈q⌉ := Int.floor_le_ceil q
  have hlt : ∀ _ : (0 : ℚ) < q - ⌊q⌋, ⌊q⌋ + 1 ≤ ⌈q⌉ := by
    intro h
    have : (⌊q⌋ : ℚ) < q := by linarith
    exact Int.add_one_le_iff.mpr (Int.lt_ceil.mpr this)
  unfold pyRoundHalfEven
  dsimp only
  split_ifs with h1 h2 h3
  · exact hfc
  · exact hlt (by linarith)
  · exact hfc
  · exact hlt (by linarith)

theorem pyRound3_le (q : ℚ) (m : ℤ) (h : q ≤ (m : ℚ) / 1000) : pyRound3 q ≤ (m : ℚ) / 1000 := by
  unfold pyRound3
  have h1 : q * 1000 ≤ (m : ℚ) := by linarith
  have h2 : ⌈q * 1000⌉ ≤ m := Int.ceil_le.mpr h1
  have h3 : pyRoundHalfEven (q * 1000) ≤ m := le_trans (pyRoundHalfEven_le_ceil _) h2
  have h4 : (pyRoundHalfEven (q * 1000) : ℚ) ≤ (m : ℚ) := by exact_mod_cast h3
  linarith

theorem le_pyRound3 (q : ℚ) (m : ℤ) (h : (m : ℚ) / 1000 ≤ q) : (m : ℚ) / 1000 ≤ pyRound3 q := by
  unfold pyRound3
  have h1 : (m : ℚ) ≤ q * 1000 := by linarith
  have h2 : m ≤ ⌊q * 1000⌋ := Int.le_floor.mpr h1
  have h3 : m ≤ pyRoundHalfEven (q * 1000) := le_trans h2 (floor_le_pyRoundHalfEven _)
  have h4 : (m : ℚ) ≤ (pyRoundHalfEven (q * 1000) : ℚ) := by exact_mod_cast h3
  linarith

theorem pyRound3_nonneg (q : ℚ) (h : 0 ≤ q) : 0 ≤ pyRound3 q := by
  have := le_pyRound3 q 0 (by simpa using h)
  simpa using this

/-! ## Bounds on the analyzer's intermediate quantities -/

theorem legitimacyOf_nonneg (t : String) : 0 ≤ legitimacyOf t := by
  unfold legitimacyOf
  apply pyRound3_nonneg
  have : (0 : ℚ) ≤ (legitTermCount t : ℚ) / 3 := by positivity
  exact le_min (by norm_num) this

theorem legitimacyOf_le_one (t : String) : legitimacyOf t ≤ 1 := by
  unfold legitimacyOf
  have := pyRound3_le (min 1 ((legitTermCount t : ℚ) / 3)) 1000
    (by
      have h1 : ((1000 : ℤ) : ℚ) / 1000 = 1 := by norm_num
      rw [h1]
      exact min_le_left 1 ((legitTermCount t : ℚ) / 3))
  simpa using this

theorem rawConfidence_nonneg (ml : ℚ) (t : String) : 0 ≤ rawConfidence ml t := by
  unfold rawConfidence
  apply pyRound3_nonneg
  exact le_min (le_max_right _ _) (by norm_num)

theorem rawConfidence_le (ml : ℚ) (t : String) : rawConfidence ml t ≤ 99/100 := by
  unfold rawConfidence
  have h990 : ((990 : ℤ) : ℚ) / 1000 = 99/100 := by norm_num
  have := pyRound3_le (min (max ((max ml ((heuristic_score t : ℚ) / 6))
      * (1 - legitimacyOf t * (4/10))) 0) (99/100)) 990
    (by rw [h990]; exact min_le_right _ _)
  rw [h990] at this
  exact this

/-! ## Substring containment facts -/

theorem pyInList_eq_true_iff (a b : List Char) : pyInList a b = true ↔ a <:+: b := by
  induction b with
  | nil => simp [pyInList, List.isPrefixOf_iff_prefix]
  | cons c cs ih => simp [pyInList, List.isPrefixOf_iff_prefix, List.infix_cons_iff, ih]

theorem pyIn_trans (a b c : String) (hab : pyIn a b = true) (hbc : pyIn b c = true) :
    pyIn a c = true := by
  rw [pyIn, pyInList_eq_true_iff] at hab hbc ⊢
  exact hab.trans hbc

/-! ## Claim theorems -/

/-- Indicator (0 or 1) of one keyword category of `_heuristic_score` matching. -/
def categoryHit (ws : List String) (text : String) : ℤ :=
  if containsAny ws (pyLower text) then 1 else 0

/-- Indicator (0 or 1) of an `https?://` link being present. -/
def linkHit (text : String) : ℤ :=
  if reSearch linkRE (pyLower text).data then 1 else 0

/-- C5: for every text, `_heuristic_score(text)` is the sum over the six
independent categories of a fixed weight added at most once per category —
urgency/threat +2, financial +2, action +1, OTP/PIN +2, reward +3, link +3
(each `categoryHit`/`linkHit` is a 0/1 indicator, so a category contributes
its weight at most once however many of its keywords occur) — and the score
is a non-negative integer. -/
theorem heuristic_score_weighted_sum (text : String) :
    heuristic_score text =
      2 * categoryHit urgencyThreatWords text + 2 * categoryHit financialWords text
      + 1 * categoryHit actionWords text + 2 * categoryHit otpPinWords text
      + 3 * categoryHit rewardWords text + 3 * linkHit text
    ∧ 0 ≤ heuristic_score text := by
  unfold heuristic_score categoryHit linkHit
  dsimp only
  constructor
  · split_ifs <;> ring
  · split_ifs <;> norm_num

/-- C10: for every text, `_heuristic_score(text)` is at most 13, the sum of
the six fixed category weights 2+2+1+2+3+3, so `heuristic_score/6` as used
in the confidence formula never exceeds 13/6. -/
theorem heuristic_score_le_thirteen (text : String) :
    heuristic_score text ≤ 13 ∧ (heuristic_score text : ℚ) / 6 ≤ 13/6 := by
  have h : heuristic_score text ≤ 13 := by
    unfold heuristic_score
    dsimp only
    split_ifs <;> norm_num
  have hq : (heuristic_score text : ℚ) ≤ 13 := by exact_mod_cast h
  exact ⟨h, by linarith⟩

/-- C9: for every provider/randomness environment, conversation depth and
last scammer text, a non-scam verdict makes `generate_reply` return the
fixed benign acknowledgment; the result does not depend on the provider or
the template chooser (the theorem holds for every `env`), so no provider
call or template selection can influence it. -/
theorem generate_reply_benign (env : ReplyEnv) (depth : ℕ) (last : String) :
    generate_reply env false depth last = "Thanks for the update." := rfl

/-- C4 (failing input): when the classifier can be neither loaded nor
trained, `ScamDetector.analyze` on a non-safe-pattern input does not return
a degraded heuristic-only `DetectionResult` — the exception escapes to the
caller, because lines 235-238 of `src/models/scam_detector.py` call
`_load_or_train` / `_vectorize` / `predict_proba` with no exception
handling. -/
theorem analyzeNoClassifier_raises :
    analyzeNoClassifier "Urgent: verify your bank account now" [] =
      Except.error "Vectorizer not initialized" := by rfl

/-- C1: safe short-circuit — whenever the lowercased combined text contains
one of the six fixed safe patterns, `ScamDetector.analyze` returns
immediately (for every classifier oracle) with `is_scam = false`,
`confidence = 0.05`, `ml_probability = 0`, `heuristic_score = 0`, and
`legitimacy_score = 1.0` exactly when `"maintenance"` occurs in the
lowercased combined text, else `0.667`; in particular any text containing
`"scheduled maintenance"` (in any case) yields `is_scam = false` and
`legitimacy_score = 1.0`. -/
theorem analyze_safe_short_circuit (model : MLModel) (msg : String) (history : List Msg)
    (h : (safePatterns.any fun p => pyIn p (pyLower (combinedText msg history))) = true) :
    (analyze model msg history).is_scam = false ∧
    (analyze model msg history).confidence = 5/100 ∧
    (analyze model msg history).ml_probability = 0 ∧
    (analyze model msg history).heuristic_score = 0 ∧
    (analyze model msg history).legitimacy_score =
      (if pyIn "maintenance" (pyLower (combinedText msg history)) then 1 else 667/1000) ∧
    (pyIn "scheduled maintenance" (pyLower (combinedText msg history)) = true →
      (analyze model msg history).is_scam = false ∧
      (analyze model msg history).legitimacy_score = 1) := by
  have hhit : safeShortCircuitHit (combinedText msg history) = true := h
  have hA : analyze model msg history = safeShortCircuitResult (combinedText msg history) := by
    unfold analyze
    dsimp only
    rw [hhit]
    simp
  rw [hA]
  unfold safeShortCircuitResult
  refine ⟨rfl, rfl, rfl, rfl, rfl, ?_⟩
  intro hsm
  have hm : pyIn "maintenance" (pyLower (combinedText msg history)) = true :=
    pyIn_trans "maintenance" "scheduled maintenance" _ (by decide) hsm
  simp [hm]

/-- Witness for C1 at a concrete input: the message "Scheduled MAINTENANCE
tonight" with empty history hits the safe pattern and contains the
maintenance phrase, so the short-circuit result has `legitimacy_score = 1`. -/
theorem analyze_safe_short_circuit_witness :
    ((safePatterns.any fun p =>
        pyIn p (pyLower (combinedText "Scheduled MAINTENANCE tonight" []))) = true) ∧
    ((analyze ⟨fun _ => 1/2⟩ "Scheduled MAINTENANCE tonight" []).is_scam = false ∧
     (analyze ⟨fun _ => 1/2⟩ "Scheduled MAINTENANCE tonight" []).confidence = 5/100 ∧
     (analyze ⟨fun _ => 1/2⟩ "Scheduled MAINTENANCE tonight" []).ml_probability = 0 ∧
     (analyze ⟨fun _ => 1/2⟩ "Scheduled MAINTENANCE tonight" []).heuristic_score = 0 ∧
     (analyze ⟨fun _ => 1/2⟩ "Scheduled MAINTENANCE tonight" []).legitimacy_score =
       (if pyIn "maintenance" (pyLower (combinedText "Scheduled MAINTENANCE tonight" []))
        then 1 else 667/1000) ∧
     (pyIn "scheduled maintenance"
         (pyLower (combinedText "Scheduled MAINTENANCE tonight" [])) = true →
       (analyze ⟨fun _ => 1/2⟩ "Scheduled MAINTENANCE tonight" []).is_scam = false ∧
       (analyze ⟨fun _ => 1/2⟩ "Scheduled MAINTENANCE tonight" []).legitimacy_score = 1)) :=
  ⟨by decide, analyze_safe_short_circuit ⟨fun _ => 1/2⟩ "Scheduled MAINTENANCE tonight" []
    (by decide)⟩

/-- Characterization of `analyze` when the safe short-circuit does not fire. -/
theorem analyze_eq_main (model : MLModel) (msg : String) (history : List Msg)
    (hns : safeShortCircuitHit (combinedText msg history) = false) :
    analyze model msg history =
      (let t := combinedText msg history
       let ml := model.predictProba t
       let conf2 := if safeOverride t then pyRound3 (min (rawConfidence ml t) (15/100))
                    else rawConfidence ml t
       let lowSignal := decide (heuristic_score t ≤ 1) && decide (ml < 65/100)
       { is_scam := if lowSignal then false
                    else if safeOverride t then false else prelimIsScam ml t
       , confidence := if lowSignal then pyRound3 (min conf2 (2/10)) else conf2
       , ml_probability := pyRound3 ml
       , heuristic_score := heuristic_score t
       , legitimacy_score := legitimacyOf t
       , combined_text_used := t }) := by
  unfold analyze
  dsimp only
  rw [hns]
  simp

/-- C2: guard ordering on the non-short-circuit path — if `safe_override`
holds, `analyze` returns `is_scam = false` with confidence at most 0.15;
whenever `heuristic_score ≤ 1` and the classifier probability is below
0.65, `analyze` returns `is_scam = false` with confidence at most 0.2; and
a final scam verdict implies the preliminary threshold verdict already held,
so neither guard ever turns a safe verdict into a scam verdict. -/
theorem analyze_guard_ordering (model : MLModel) (msg : String) (history : List Msg)
    (hns : safeShortCircuitHit (combinedText msg history) = false) :
    (safeOverride (combinedText msg history) = true →
      (analyze model msg history).is_scam = false ∧
      (analyze model msg history).confidence ≤ 15/100) ∧
    (heuristic_score (combinedText msg history) ≤ 1 ∧
        model.predictProba (combinedText msg history) < 65/100 →
      (analyze model msg history).is_scam = false ∧
      (analyze model msg history).confidence ≤ 2/10) ∧
    ((analyze model msg history).is_scam = true →
      prelimIsScam (model.predictProba (combinedText msg history))
        (combinedText msg history) = true) := by
  rw [analyze_eq_main model msg history hns]
  dsimp only
  have h150 : ((150 : ℤ) : ℚ) / 1000 = 15/100 := by norm_num
  have h200 : ((200 : ℤ) : ℚ) / 1000 = 2/10 := by norm_num
  refine ⟨?_, ?_, ?_⟩
  · intro hso
    rw [hso]
    have hc2 : pyRound3 (min (rawConfidence (model.predictProba (combinedText msg history))
        (combinedText msg history)) (15/100)) ≤ 15/100 := by
      have := pyRound3_le (min (rawConfidence (model.predictProba (combinedText msg history))
        (combinedText msg history)) (15/100)) 150 (by rw [h150]; exact min_le_right _ _)
      rwa [h150] at this
    by_cases hls : (decide (heuristic_score (combinedText msg history) ≤ 1)
        && decide (model.predictProba (combinedText msg history) < 65/100)) = true
    · rw [hls]
      simp only [if_true]
      refine ⟨by trivial, ?_⟩
      have := pyRound3_le (min (pyRound3 (min (rawConfidence
          (model.predictProba (combinedText msg history)) (combinedText msg history))
          (15/100))) (2/10)) 150 (by rw [h150]; exact le_trans (min_le_left _ _) hc2)
      rwa [h150] at this
    · rw [Bool.not_eq_true] at hls
      rw [hls]
      simp only [Bool.false_eq_true, if_false]
      exact ⟨rfl, hc2⟩
  · rintro ⟨hh, hml⟩
    have hls : (decide (heuristic_score (combinedText msg history) ≤ 1)
        && decide (model.predictProba (combinedText msg history) < 65/100)) = true := by
      simp [hh, hml]
    rw [hls]
    simp only [if_true]
    refine ⟨by trivial, ?_⟩
    by_cases hso : safeOverride (combinedText msg history) = true
    · rw [hso]
      simp only [if_true]
      have := pyRound3_le (min (pyRound3 (min (rawConfidence
          (model.predictProba (combinedText msg history)) (combinedText msg history))
          (15/100))) (2/10)) 200 (by rw [h200]; exact min_le_right _ _)
      rwa [h200] at this
    · rw [Bool.not_eq_true] at hso
      rw [hso]
      simp only [Bool.false_eq_true, if_false]
      have := pyRound3_le (min (rawConfidence (model.predictProba (combinedText msg history))
          (combinedText msg history)) (2/10)) 200 (by rw [h200]; exact min_le_right _ _)
      rwa [h200] at this
  · intro hscam
    by_cases hls : (decide (heuristic_score (combinedText msg history) ≤ 1)
        && decide (model.predictProba (combinedText msg history) < 65/100)) = true
    · rw [hls] at hscam
      simp at hscam
    · rw [Bool.not_eq_true] at hls
      rw [hls] at hscam
      simp only [Bool.false_eq_true, if_false] at hscam
      by_cases hso : safeOverride (combinedText msg history) = true
      · rw [hso] at hscam
        simp at hscam
      · rw [Bool.not_eq_true] at hso
        rw [hso] at hscam
        simpa using hscam

/-- Witness for C2 at a concrete input: "hello there" with empty history
misses the safe patterns, so the guard-ordering theorem applies. -/
theorem analyze_guard_ordering_witness :
    (safeShortCircuitHit (combinedText "hello there" []) = false) ∧
    ((safeOverride (combinedText "hello there" []) = true →
      (analyze ⟨fun _ => 1/2⟩ "hello there" []).is_scam = false ∧
      (analyze ⟨fun _ => 1/2⟩ "hello there" []).confidence ≤ 15/100) ∧
    (heuristic_score (combinedText "hello there" []) ≤ 1 ∧
        MLModel.predictProba ⟨fun _ => 1/2⟩ (combinedText "hello there" []) < 65/100 →
      (analyze ⟨fun _ => 1/2⟩ "hello there" []).is_scam = false ∧
      (analyze ⟨fun _ => 1/2⟩ "hello there" []).confidence ≤ 2/10) ∧
    ((analyze ⟨fun _ => 1/2⟩ "hello there" []).is_scam = true →
      prelimIsScam (MLModel.predictProba ⟨fun _ => 1/2⟩ (combinedText "hello there" []))
        (combinedText "hello there" []) = true)) :=
  ⟨by decide, analyze_guard_ordering ⟨fun _ => 1/2⟩ "hello there" [] (by decide)⟩

theorem pyRound3_le_99 (q : ℚ) (h : q ≤ 99/100) : pyRound3 q ≤ 99/100 := by
  have h990 : ((990 : ℤ) : ℚ) / 1000 = 99/100 := by norm_num
  have := pyRound3_le q 990 (by rw [h990]; exact h)
  rwa [h990] at this

theorem pyRound3_le_one (q : ℚ) (h : q ≤ 1) : pyRound3 q ≤ 1 := by
  have h1000 : ((1000 : ℤ) : ℚ) / 1000 = 1 := by norm_num
  have := pyRound3_le q 1000 (by rw [h1000]; exact h)
  rwa [h1000] at this

/-- One confidence-capping step `round(min(c, x), 3)` stays in `[0, 0.99]`. -/
theorem capStep_bounds (c x : ℚ) (hc0 : 0 ≤ c) (hc1 : c ≤ 99/100) (hx0 : 0 ≤ x) :
    0 ≤ pyRound3 (min c x) ∧ pyRound3 (min c x) ≤ 99/100 :=
  ⟨pyRound3_nonneg _ (le_min hc0 hx0),
   pyRound3_le_99 _ (le_trans (min_le_left _ _) hc1)⟩

/-- C6: on every return path of `ScamDetector.analyze` (safe short-circuit,
safe-override path, low-signal guard path, raw formula path), and for every
classifier oracle producing probabilities in `[0, 1]`, the result has
`confidence ∈ [0, 0.99]`, `ml_probability ∈ [0, 1]` and
`legitimacy_score ∈ [0, 1]`. -/
theorem analyze_result_ranges (model : MLModel) (msg : String) (history : List Msg)
    (hml : ∀ t, 0 ≤ model.predictProba t ∧ model.predictProba t ≤ 1) :
    0 ≤ (analyze model msg history).confidence ∧
    (analyze model msg history).confidence ≤ 99/100 ∧
    0 ≤ (analyze model msg history).ml_probability ∧
    (analyze model msg history).ml_probability ≤ 1 ∧
    0 ≤ (analyze model msg history).legitimacy_score ∧
    (analyze model msg history).legitimacy_score ≤ 1 := by
  by_cases hss : safeShortCircuitHit (combinedText msg history) = true
  · have hA : analyze model msg history = safeShortCircuitResult (combinedText msg history) := by
      unfold analyze
      dsimp only
      rw [hss]
      simp
    rw [hA]
    unfold safeShortCircuitResult
    dsimp only
    split_ifs <;> norm_num
  · rw [Bool.not_eq_true] at hss
    rw [analyze_eq_main model msg history hss]
    dsimp only
    obtain ⟨hml0, hml1⟩ := hml (combinedText msg history)
    have hraw0 := rawConfidence_nonneg (model.predictProba (combinedText msg history))
      (combinedText msg history)
    have hraw1 := rawConfidence_le (model.predictProba (combinedText msg history))
      (combinedText msg history)
    have hcap15 := capStep_bounds (rawConfidence (model.predictProba (combinedText msg history))
      (combinedText msg history)) (15/100) hraw0 hraw1 (by norm_num)
    refine ⟨?_, ?_, pyRound3_nonneg _ hml0, pyRound3_le_one _ hml1,
      legitimacyOf_nonneg _, legitimacyOf_le_one _⟩ <;>
      split_ifs with h1 h2 h2
    · exact (capStep_bounds _ (2/10) hcap15.1 hcap15.2 (by norm_num)).1
    · exact (capStep_bounds _ (2/10) hraw0 hraw1 (by norm_num)).1
    · exact hcap15.1
    · exact hraw0
    · exact le_trans (capStep_bounds _ (2/10) hcap15.1 hcap15.2 (by norm_num)).2 (le_refl _)
    · exact (capStep_bounds _ (2/10) hraw0 hraw1 (by norm_num)).2
    · exact hcap15.2
    · exact hraw1

/-- Witness for C6 at a concrete input: the constant-½ oracle is a valid
probability, so the range invariant holds for "check this" with one
scammer history message. -/
theorem analyze_result_ranges_witness :
    0 ≤ (analyze ⟨fun _ => 1/2⟩ "check this" [⟨"scammer", "pay me"⟩]).confidence ∧
    (analyze ⟨fun _ => 1/2⟩ "check this" [⟨"scammer", "pay me"⟩]).confidence ≤ 99/100 ∧
    0 ≤ (analyze ⟨fun _ => 1/2⟩ "check this" [⟨"scammer", "pay me"⟩]).ml_probability ∧
    (analyze ⟨fun _ => 1/2⟩ "check this" [⟨"scammer", "pay me"⟩]).ml_probability ≤ 1 ∧
    0 ≤ (analyze ⟨fun _ => 1/2⟩ "check this" [⟨"scammer", "pay me"⟩]).legitimacy_score ∧
    (analyze ⟨fun _ => 1/2⟩ "check this" [⟨"scammer", "pay me"⟩]).legitimacy_score ≤ 1 :=
  analyze_result_ranges ⟨fun _ => 1/2⟩ "check this" [⟨"scammer", "pay me"⟩]
    (fun _ => by norm_num)

/-- The combined text as claim C3's sentence describes it: the stripped
current message, a space, and the (space-joined) texts of up to the last 3
*scammer-authored* history messages, in original chronological order. -/
def combinedTextClaim (message_text : String) (history : List Msg) : String :=
  let scammers := history.filter (fun m => m.sender = "scammer")
  let lastThree := scammers.drop (scammers.length - 3)
  ⟨(pyStrip message_text).data ++ " ".data ++ joinWith " ".data (lastThree.map (·.text))⟩

/-- C3 counterexample: with history
`[scammer "AAA", user "b", user "c", user "d"]` and current message "hi",
the code's `history[-3:]` window contains no scammer message, so
`combined_text = "hi"` — the scammer message "AAA", although it is among
the last 3 scammer-authored messages of the history, is dropped because 3
non-scammer messages follow it, contradicting the claim. -/
theorem combinedText_counterexample :
    combinedText "hi"
        [⟨"scammer", "AAA"⟩, ⟨"user", "b"⟩, ⟨"user", "c"⟩, ⟨"user", "d"⟩] ≠
      combinedTextClaim "hi"
        [⟨"scammer", "AAA"⟩, ⟨"user", "b"⟩, ⟨"user", "c"⟩, ⟨"user", "d"⟩] ∧
    pyIn "AAA" (combinedText "hi"
        [⟨"scammer", "AAA"⟩, ⟨"user", "b"⟩, ⟨"user", "c"⟩, ⟨"user", "d"⟩]) = false := by
  refine ⟨?_, by decide⟩
  decide

/-- The combined text as the amended claim describes it: strip the current
message, append a space and the space-joined texts of the scammer-authored
messages among the **last 3 history messages** (in original order), and
strip the result. -/
def combinedTextAmended (message_text : String) (history : List Msg) : String :=
  let window := (history.reverse.take 3).reverse
  ⟨pyStripList ((pyStrip message_text).data ++ " ".data ++
    joinWith " ".data ((window.filter (fun m => m.sender = "scammer")).map (·.text)))⟩

/-- C3 amended: for every current message and history, the combined text
used by `ScamDetector.analyze` equals `strip(strip(message) + " " +
" ".join(texts of the scammer-authored messages among the last 3 history
messages, in original order))`; a scammer-authored message is included iff
it lies within the last 3 messages of the history (it is dropped whenever
3 or more messages of any sender follow it). -/
theorem combinedText_amended_eq (message_text : String) (history : List Msg) :
    combinedText message_text history = combinedTextAmended message_text history := by
  unfold combinedText combinedTextAmended pyStrip
  dsimp only
  rw [List.take_reverse]
  simp

/-! ## Characterizing the `\+91\d{10}` search (for C7) -/

theorem splitsUpTo_length (p : Char → Bool) :
    ∀ (cs : List Char) (prev : Option Char),
      (splitsUpTo p prev cs).length = (cs.takeWhile p).length + 1 := by
  intro cs
  induction cs with
  | nil => intro prev; simp [splitsUpTo]
  | cons c cs ih =>
    intro prev
    by_cases h : p c = true
    · simp [splitsUpTo, List.takeWhile_cons, h, ih]
    · rw [Bool.not_eq_true] at h
      simp [splitsUpTo, List.takeWhile_cons, h]

theorem le_takeWhile_length_iff (p : Char → Bool) :
    ∀ (n : ℕ) (l : List Char),
      n ≤ (l.takeWhile p).length ↔ n ≤ l.length ∧ (l.take n).all p = true := by
  intro n
  induction n with
  | zero => intro l; simp
  | succ n ih =>
    intro l
    cases l with
    | nil => simp
    | cons c cs =>
      by_cases h : p c = true
      · simp [List.takeWhile_cons, h, List.take_succ_cons, Nat.succ_le_succ_iff, ih]
      · rw [Bool.not_eq_true] at h
        simp [List.takeWhile_cons, h, List.take_succ_cons]

theorem litMatch_plus91 (prev : Option Char) (cs : List Char) :
    litMatch ['+', '9', '1'] prev cs =
      if cs.take 3 = ['+', '9', '1'] then [(some '1', cs.drop 3)] else [] := by
  rcases cs with _ | ⟨a, _ | ⟨b, _ | ⟨c, rest⟩⟩⟩
  · simp [litMatch]
  · simp [litMatch]
  · simp [litMatch]
  · by_cases ha : a = '+'
    · subst ha
      by_cases hb : b = '9'
      · subst hb
        by_cases hc : c = '1'
        · subst hc
          simp [litMatch]
        · have hc' : ¬('1' = c) := fun h => hc h.symm
          simp [litMatch, hc, hc']
      · have hb' : ¬('9' = b) := fun h => hb h.symm
        simp [litMatch, hb, hb']
    · have ha' : ¬('+' = a) := fun h => ha h.symm
      simp [litMatch, ha, ha']

theorem reMatch_plus91 (prev : Option Char) (cs : List Char) :
    reMatch phoneFeatureRE prev cs =
      if cs.take 3 = ['+', '9', '1'] then
        (((splitsUpTo isDigitChar (some '1') (cs.drop 3)).take 11).drop 10).reverse
      else [] := by
  have hd : "+91".data = ['+', '9', '1'] := rfl
  show (litMatch "+91".data prev cs).flatMap
      (fun pc => reMatch (.rep isDigitChar 10 (some 10)) pc.1 pc.2) = _
  rw [hd, litMatch_plus91]
  split_ifs with h
  · simp [reMatch]
  · simp

theorem rep10_ne_nil_iff (prev : Option Char) (cs : List Char) :
    (((splitsUpTo isDigitChar prev cs).take 11).drop 10).reverse ≠ [] ↔
      10 ≤ cs.length ∧ (cs.take 10).all isDigitChar = true := by
  rw [← le_takeWhile_length_iff isDigitChar 10 cs]
  rw [← List.length_pos, List.length_reverse, List.length_drop, List.length_take,
    splitsUpTo_length isDigitChar cs prev]
  omega

theorem reSearchAux_plus91_iff :
    ∀ (cs : List Char) (prev : Option Char),
      reSearchAux phoneFeatureRE prev cs = true ↔
        ∃ pre rest, cs = pre ++ '+' :: '9' :: '1' :: rest ∧
          10 ≤ rest.length ∧ (rest.take 10).all isDigitChar = true := by
  intro cs
  induction cs with
  | nil =>
    intro prev
    constructor
    · intro h
      exfalso
      rw [reSearchAux, reMatch_plus91] at h
      simp at h
    · rintro ⟨pre, rest, h, -⟩
      exact absurd h (by simp)
  | cons c cs ih =>
    intro prev
    rw [reSearchAux, Bool.or_eq_true, ih]
    constructor
    · rintro (h | ⟨pre, rest, h, hlen, hall⟩)
      · have hne : reMatch phoneFeatureRE prev (c :: cs) ≠ [] := by
          simp only [Bool.not_eq_true', List.isEmpty_eq_false] at h
          exact h
        rw [reMatch_plus91] at hne
        by_cases htake : (c :: cs).take 3 = ['+', '9', '1']
        · rw [if_pos htake] at hne
          obtain ⟨hlen, hall⟩ := (rep10_ne_nil_iff (some '1') ((c :: cs).drop 3)).mp hne
          refine ⟨[], (c :: cs).drop 3, ?_, hlen, hall⟩
          have hta : (c :: cs).take 3 ++ (c :: cs).drop 3 = c :: cs :=
            List.take_append_drop 3 (c :: cs)
          rw [htake] at hta
          simpa using hta.symm
        · rw [if_neg htake] at hne
          exact absurd rfl hne
      · exact ⟨c :: pre, rest, by rw [h]; rfl, hlen, hall⟩
    · rintro ⟨pre, rest, h, hlen, hall⟩
      cases pre with
      | nil =>
        left
        simp only [List.nil_append] at h
        simp only [Bool.not_eq_true', List.isEmpty_eq_false]
        rw [h, reMatch_plus91]
        have hcond : List.take 3 ('+' :: '9' :: '1' :: rest) = ['+', '9', '1'] := rfl
        rw [if_pos hcond]
        have hdrop : List.drop 3 ('+' :: '9' :: '1' :: rest) = rest := rfl
        rw [hdrop]
        exact (rep10_ne_nil_iff (some '1') rest).mpr ⟨hlen, hall⟩
      | cons p pre' =>
        right
        rw [List.cons_append] at h
        exact ⟨pre', rest, (List.cons.injEq c cs p _).mp h |>.2, hlen, hall⟩

/-- C7 counterexample: the bare 10-digit text "9876543210" matches the
repository's own country-code-or-bare-10-digit phone pattern
(`\+?91[- ]?\d{10}|\b[6-9]\d{9}\b`, the claimed reading), yet the feature
regex `\+91\d{10}` does not match, so `phone_present = 0`, refuting both
the claimed equivalence and the claimed `phone_present = 1` on a bare
10-digit local number. -/
theorem phone_feature_counterexample :
    reSearch phoneIntelRE "9876543210".data = true ∧
    phonePresentFeature "9876543210" = 0 := by
  exact ⟨by decide, by decide⟩

/-- C7 amended: for every text, `phone_present = 1` iff the lowercased text
contains `"+91"` immediately followed by at least 10 ASCII digits (the
country-code-prefixed pattern `\+91\d{10}` only); a bare local number
without the `"+91"` prefix never sets the feature. -/
theorem phone_feature_characterization (text : String) :
    phonePresentFeature text = 1 ↔
      ∃ pre rest, (pyLower text).data = pre ++ '+' :: '9' :: '1' :: rest ∧
        10 ≤ rest.length ∧ (rest.take 10).all isDigitChar = true := by
  rw [← reSearchAux_plus91_iff (pyLower text).data none]
  unfold phonePresentFeature reSearch
  constructor
  · intro h1
    by_cases h : reSearchAux phoneFeatureRE none (pyLower text).data = true
    · exact h
    · rw [Bool.not_eq_true] at h
      rw [h] at h1
      norm_num at h1
  · intro h
    rw [h]
    norm_num

/-! ## `pySortedSet` produces duplicate-free sorted lists (for C8) -/

theorem lexLe_iff_not_lex : ∀ as bs : List Char,
    lexLe as bs = true ↔ ¬ List.Lex (· < ·) bs as := by
  intro as
  induction as with
  | nil =>
    intro bs
    rw [show lexLe [] bs = true from rfl]
    simp only [true_iff]
    exact List.Lex.not_nil_right _ _
  | cons a as ih =>
    intro bs
    cases bs with
    | nil =>
      rw [show lexLe (a :: as) [] = false from rfl]
      simp only [Bool.false_eq_true, false_iff, not_not]
      exact List.Lex.nil
    | cons b bs =>
      rcases lt_trichotomy a b with h | h | h
      · have h1 : lexLe (a :: as) (b :: bs) = true := by
          rw [lexLe]
          rw [if_pos h]
        rw [h1]
        simp only [true_iff]
        intro hlex
        cases hlex with
        | rel hr => exact absurd hr (asymm h)
        | cons ht => exact lt_irrefl _ h
      · subst h
        have h1 : lexLe (a :: as) (a :: bs) = lexLe as bs := by
          rw [lexLe]
          rw [if_neg (lt_irrefl a), if_neg (lt_irrefl a)]
        rw [h1, ih bs]
        constructor
        · intro hn hlex
          cases hlex with
          | rel hr => exact lt_irrefl _ hr
          | cons ht => exact hn ht
        · intro hn hlex
          exact hn (List.Lex.cons hlex)
      · have h1 : lexLe (a :: as) (b :: bs) = false := by
          rw [lexLe]
          rw [if_neg (asymm h), if_pos h]
        rw [h1]
        simp only [Bool.false_eq_true, false_iff, not_not]
        exact List.Lex.rel h

theorem lexLe_iff_le (s t : String) : lexLe s.data t.data = true ↔ s ≤ t := by
  rw [String.le_iff_toList_le]
  rw [← not_lt]
  exact lexLe_iff_not_lex s.data t.data

theorem pySortedSet_nodup (l : List String) : (pySortedSet l).Nodup :=
  ((List.perm_insertionSort (fun a b : String => lexLe a.data b.data = true) l.dedup).nodup_iff).mpr
    (List.nodup_dedup l)

theorem pySortedSet_sorted (l : List String) : (pySortedSet l).Sorted (· ≤ ·) := by
  letI : IsTotal String (fun a b : String => lexLe a.data b.data = true) :=
    ⟨fun a b => by
      rw [lexLe_iff_le, lexLe_iff_le]
      exact le_total a b⟩
  letI : IsTrans String (fun a b : String => lexLe a.data b.data = true) :=
    ⟨fun a b c hab hbc => by
      rw [lexLe_iff_le] at hab hbc ⊢
      exact le_trans hab hbc⟩
  have h := List.sorted_insertionSort (fun a b : String => lexLe a.data b.data = true) l.dedup
  exact h.imp (fun {a b} hr => (lexLe_iff_le a b).mp hr)

/-- C8 counterexample: the scammer-side text
"attacker@paytmx +919876543210 https://malicious-site.com 1234-5678-9012"
contains all four claimed tokens as substrings, yet `extract_intelligence`
does not return `attacker@paytm` in `upiIds` (the greedy handle regex
matches the longer token `attacker@paytmx` instead), refuting the
universally quantified round-trip claim. -/
theorem extract_intelligence_counterexample :
    (pyIn "attacker@paytm" (collectText []
       "attacker@paytmx +919876543210 https://malicious-site.com 1234-5678-9012") = true ∧
     pyIn "+919876543210" (collectText []
       "attacker@paytmx +919876543210 https://malicious-site.com 1234-5678-9012") = true ∧
     pyIn "https://malicious-site.com" (collectText []
       "attacker@paytmx +919876543210 https://malicious-site.com 1234-5678-9012") = true ∧
     pyIn "1234-5678-9012" (collectText []
       "attacker@paytmx +919876543210 https://malicious-site.com 1234-5678-9012") = true) ∧
    ¬ ((extract_intelligence []
       "attacker@paytmx +919876543210 https://malicious-site.com 1234-5678-9012").upiIds.count
         "attacker@paytm" = 1) := by
  refine ⟨⟨by decide, by decide, by decide, by decide⟩, by decide⟩

/-- C8 amended: on the canonical space-separated token input,
`extract_intelligence` returns `attacker@paytm` exactly once in `upiIds`,
`+919876543210` exactly once in `phoneNumbers`, `https://malicious-site.com`
exactly once in `phishingLinks` and `1234-5678-9012` exactly once in
`bankAccounts` (alongside the 12-digit run of the phone number, which the
account regex also matches); and for every history and current message all
five returned lists are duplicate-free and sorted ascending. -/
theorem extract_intelligence_round_trip (history : List Msg) (current : String) :
    ((extract_intelligence []
        "attacker@paytm +919876543210 https://malicious-site.com 1234-5678-9012").upiIds
        = ["attacker@paytm"] ∧
     (extract_intelligence []
        "attacker@paytm +919876543210 https://malicious-site.com 1234-5678-9012").phoneNumbers
        = ["+919876543210"] ∧
     (extract_intelligence []
        "attacker@paytm +919876543210 https://malicious-site.com 1234-5678-9012").phishingLinks
        = ["https://malicious-site.com"] ∧
     (extract_intelligence []
        "attacker@paytm +919876543210 https://malicious-site.com 1234-5678-9012").bankAccounts
        = ["1234-5678-9012", "919876543210"]) ∧
    ((extract_intelligence history current).bankAccounts.Nodup ∧
     (extract_intelligence history current).bankAccounts.Sorted (· ≤ ·) ∧
     (extract_intelligence history current).upiIds.Nodup ∧
     (extract_intelligence history current).upiIds.Sorted (· ≤ ·) ∧
     (extract_intelligence history current).phishingLinks.Nodup ∧
     (extract_intelligence history current).phishingLinks.Sorted (· ≤ ·) ∧
     (extract_intelligence history current).phoneNumbers.Nodup ∧
     (extract_intelligence history current).phoneNumbers.Sorted (· ≤ ·) ∧
     (extract_intelligence history current).suspiciousKeywords.Nodup ∧
     (extract_intelligence history current).suspiciousKeywords.Sorted (· ≤ ·)) := by
  refine ⟨⟨by decide, by decide, by decide, by decide⟩,
    pySortedSet_nodup _, pySortedSet_sorted _, pySortedSet_nodup _, pySortedSet_sorted _,
    pySortedSet_nodup _, pySortedSet_sorted _, pySortedSet_nodup _, pySortedSet_sorted _,
    pySortedSet_nodup _, pySortedSet_sorted _⟩
